import Mathlib

/-!
# Verification of `fit.py` (ship_detection training driver)

A shallow embedding of the repository's single source file `fit.py`.
The script wires an argument parser, a model registry, Keras callbacks,
a data-loading function and a `fit` function into a top-level retry loop.

External code (the Keras framework and the repository modules
`config`, `models`, `prepare_datasets`, `utils` that are imported but whose
sources are not available) is modelled by an environment of uninterpreted
fallible functions; Python exceptions are modelled by `Except PyErr`;
observable actions of the script are recorded in an event trace.
-/

set_option autoImplicit false

deriving instance DecidableEq for Except

namespace ShipDetection

/-- A Python exception: the embedding distinguishes `OSError` (the only
exception type the script ever catches, in `load_weight_if_possible`)
from every other exception, carried with a message. -/
inductive PyErr where
  | osError
  | other (msg : String)
  deriving DecidableEq, Repr

/-- A value stored in the parsed-arguments dictionary `vars(ap.parse_args())`:
`--model_name` holds a string, `--learning_rate` a float (modelled as `ℚ`),
and the three `store_true` flags hold booleans. -/
inductive ArgVal where
  | str (s : String)
  | num (q : ℚ)
  | bool (b : Bool)
  deriving DecidableEq, Repr

/-- The argument dictionary: an association list of key/value pairs,
mirroring the Python `dict` returned by `vars(ap.parse_args())`. -/
def ArgsDict := List (String × ArgVal)

instance : DecidableEq ArgsDict := by
  unfold ArgsDict
  infer_instance

instance : Repr ArgsDict := by
  unfold ArgsDict
  infer_instance

/-- Dictionary read `d[k]`, as an `Option`. -/
def lookupArg (d : ArgsDict) (k : String) : Option ArgVal :=
  (d.find? (fun p => p.fst = k)).map Prod.snd

/-- Read a string-valued entry (used for `args['model_name']`). -/
def getStr (d : ArgsDict) (k : String) : String :=
  match lookupArg d k with
  | some (ArgVal.str s) => s
  | _ => ""

/-- Read a boolean-valued entry (used for the three `store_true` flags). -/
def getBool (d : ArgsDict) (k : String) : Bool :=
  match lookupArg d k with
  | some (ArgVal.bool b) => b
  | _ => false

/-- Read a numeric entry (used for `args['learning_rate']`). -/
def getNum (d : ArgsDict) (k : String) : ℚ :=
  match lookupArg d k with
  | some (ArgVal.num q) => q
  | _ => 0

/-- Overwrite the value stored at key `k` (the key set is unchanged):
this is how `argparse` records a parsed option into the namespace. -/
def setArg (k : String) (v : ArgVal) : ArgsDict → ArgsDict
  | [] => []
  | (k', v') :: rest =>
      if k' = k then (k, v) :: rest else (k', v') :: setArg k v rest

/-! ## The command-line interface

`fit.py` registers five options:
`-mn` or `--model_name` (string, default `'simple_unet'`),
`-lr` or `--learning_rate` (float, default `0.001`), and the three
`store_true` flags `-tt` `--train_only_top`, `-cl` `--classify_mode`,
`-lw` `--load_weights`, each defaulting to `False`.
The embedding models `argparse` parsing as a token-by-token state machine
over exact option spellings; an unrecognized token is a parse error. -/

/-- The defaults of the five registered options, in registration order. -/
def defaultArgs : ArgsDict :=
  [("model_name", ArgVal.str "simple_unet"),
   ("learning_rate", ArgVal.num (mkRat 1 1000)),
   ("train_only_top", ArgVal.bool false),
   ("classify_mode", ArgVal.bool false),
   ("load_weights", ArgVal.bool false)]

/-- Accumulate a decimal digit list into a natural number. -/
def digitsToNat (cs : List Char) : Nat :=
  cs.foldl (fun acc c => acc * 10 + (c.toNat - 48)) 0

/-- Python `float(s)` restricted to plain decimal literals
(optional sign, digits, optional fractional part), as a rational. -/
def parseFloatQ (s : String) : Option ℚ :=
  let cs := s.data
  let signed : Bool × List Char :=
    match cs with
    | '-' :: r => (true, r)
    | '+' :: r => (false, r)
    | _ => (false, cs)
  let body := signed.snd
  let ip := body.takeWhile (fun c => c ≠ '.')
  let rest := body.dropWhile (fun c => c ≠ '.')
  let core : Option ℚ :=
    match rest with
    | [] =>
        if ip = [] ∨ ¬ ip.all Char.isDigit then none
        else some (mkRat (digitsToNat ip) 1)
    | _ :: fp =>
        if (ip = [] ∧ fp = []) ∨ ¬ ip.all Char.isDigit ∨ ¬ fp.all Char.isDigit then none
        else some (mkRat (digitsToNat ip * 10 ^ fp.length + digitsToNat fp) (10 ^ fp.length))
  core.map (fun q => if signed.fst then -q else q)

/-- Parser state: either at the top level, or waiting for the value of
`--model_name` / `--learning_rate`. -/
inductive PMode where
  | top
  | expectStr (key : String)
  | expectFloat (key : String)
  deriving DecidableEq, Repr

/-- One `argparse` step: consume one command-line token. -/
def parseStep (m : PMode) (t : String) (d : ArgsDict) : Option (PMode × ArgsDict) :=
  match m with
  | PMode.expectStr k => some (PMode.top, setArg k (ArgVal.str t) d)
  | PMode.expectFloat k =>
      match parseFloatQ t with
      | none => none
      | some q => some (PMode.top, setArg k (ArgVal.num q) d)
  | PMode.top =>
      if t = "-mn" ∨ t = "--model_name" then
        some (PMode.expectStr "model_name", d)
      else if t = "-lr" ∨ t = "--learning_rate" then
        some (PMode.expectFloat "learning_rate", d)
      else if t = "-tt" ∨ t = "--train_only_top" then
        some (PMode.top, setArg "train_only_top" (ArgVal.bool true) d)
      else if t = "-cl" ∨ t = "--classify_mode" then
        some (PMode.top, setArg "classify_mode" (ArgVal.bool true) d)
      else if t = "-lw" ∨ t = "--load_weights" then
        some (PMode.top, setArg "load_weights" (ArgVal.bool true) d)
      else none

/-- Run the parser over the whole token list; a dangling option
waiting for its value is an error, as in `argparse`. -/
def parseRun (m : PMode) (toks : List String) (d : ArgsDict) : Option ArgsDict :=
  match toks with
  | [] => match m with
          | PMode.top => some d
          | _ => none
  | t :: ts =>
      match parseStep m t d with
      | none => none
      | some (m', d') => parseRun m' ts d'

/-- `vars(ap.parse_args(argv))`: parse the command line starting from the
registered defaults. -/
def parse_args (toks : List String) : Option ArgsDict :=
  parseRun PMode.top toks defaultArgs

/-- The key set of an argument dictionary, in order. -/
def argKeys (d : ArgsDict) : List String := d.map Prod.fst

theorem setArg_keys (k : String) (v : ArgVal) (d : ArgsDict) :
    argKeys (setArg k v d) = argKeys d := by
  induction d with
  | nil => rfl
  | cons p rest ih =>
      simp only [setArg, argKeys]
      by_cases h : p.fst = k
      · simp [h]
      · simp only [argKeys] at ih
        simp [h, ih]

theorem parseStep_keys (m m' : PMode) (t : String) (d d' : ArgsDict)
    (h : parseStep m t d = some (m', d')) : argKeys d' = argKeys d := by
  cases m with
  | expectStr k =>
      simp only [parseStep, Option.some.injEq, Prod.mk.injEq] at h
      rw [← h.2, setArg_keys]
  | expectFloat k =>
      simp only [parseStep] at h
      cases hf : parseFloatQ t with
      | none => rw [hf] at h; exact absurd h (by simp)
      | some q =>
          rw [hf] at h
          simp only [Option.some.injEq, Prod.mk.injEq] at h
          rw [← h.2, setArg_keys]
  | top =>
      simp only [parseStep] at h
      split_ifs at h <;>
        first
          | exact Option.noConfusion h
          | (simp only [Option.some.injEq, Prod.mk.injEq] at h
             first
               | (rw [← h.2, setArg_keys])
               | (rw [← h.2]))

theorem parseRun_keys (toks : List String) : ∀ (m : PMode) (d r : ArgsDict),
    parseRun m toks d = some r → argKeys r = argKeys d := by
  induction toks with
  | nil =>
      intro m d r h
      cases m with
      | top =>
          simp only [parseRun] at h
          exact congrArg argKeys (Option.some.inj h).symm
      | expectStr k => simp [parseRun] at h
      | expectFloat k => simp [parseRun] at h
  | cons t ts ih =>
      intro m d r h
      simp only [parseRun] at h
      cases hs : parseStep m t d with
      | none => rw [hs] at h; exact absurd h (by simp)
      | some p =>
          rw [hs] at h
          have := ih p.fst p.snd r h
          rw [this, parseStep_keys m p.fst t d p.snd (by rw [hs])]

/-! ## The model registry and callbacks -/

/-- Modelled from the spec: the module `models` (imported by `fit.py` but not
among the available sources) provides one model-building object per
architecture, each carrying a `MODEL_NAME`, a `WEIGHT_PATH` and a
`FIT_HISTORY_PATH`; per the spec, the weights file and the CSV log are
"per model" and the weights file path is unique per model name. -/
structure SegModel where
  MODEL_NAME : String
  WEIGHT_PATH : String
  FIT_HISTORY_PATH : String
  deriving DecidableEq, Repr

/-- Modelled from the spec: the `UNet` architecture object; the script's
default `--model_name` is `'simple_unet'`. -/
def UNet : SegModel :=
  ⟨"simple_unet", "simple_unet_weights.best.hdf5", "simple_unet_fit_history.csv"⟩

/-- Modelled from the spec: the `UNet2` architecture object. -/
def UNet2 : SegModel :=
  ⟨"simple_unet2", "simple_unet2_weights.best.hdf5", "simple_unet2_fit_history.csv"⟩

/-- Modelled from the spec: the `TernausNetV1` architecture object. -/
def TernausNetV1 : SegModel :=
  ⟨"ternaus_net_v1", "ternaus_net_v1_weights.best.hdf5", "ternaus_net_v1_fit_history.csv"⟩

/-- Modelled from the spec: the `TernausNetV2` architecture object. -/
def TernausNetV2 : SegModel :=
  ⟨"ternaus_net_v2", "ternaus_net_v2_weights.best.hdf5", "ternaus_net_v2_fit_history.csv"⟩

/-- Modelled from the spec: the `VGG19UNetV1` architecture object. -/
def VGG19UNetV1 : SegModel :=
  ⟨"vgg19_unet_v1", "vgg19_unet_v1_weights.best.hdf5", "vgg19_unet_v1_fit_history.csv"⟩

/-- Modelled from the spec: the `VGG19UNetV2` architecture object. -/
def VGG19UNetV2 : SegModel :=
  ⟨"vgg19_unet_v2", "vgg19_unet_v2_weights.best.hdf5", "vgg19_unet_v2_fit_history.csv"⟩

/-- Modelled from the spec: the `ResNet50UnetV1` architecture object. -/
def ResNet50UnetV1 : SegModel :=
  ⟨"resnet50_unet_v1", "resnet50_unet_v1_weights.best.hdf5", "resnet50_unet_v1_fit_history.csv"⟩

/-- Python dict insertion: a later binding for an existing key overwrites
the earlier one, new keys go to the end (insertion order). -/
def dictInsert (d : List (String × SegModel)) (k : String) (m : SegModel) :
    List (String × SegModel) :=
  if d.any (fun p => p.fst = k) then
    d.map (fun p => if p.fst = k then (k, m) else p)
  else d ++ [(k, m)]

/-- `AVAILABLE_MODELS = {model.MODEL_NAME: model for model in [UNet2(), UNet(),
TernausNetV1(), TernausNetV2(), VGG19UNetV1(), VGG19UNetV2(), ResNet50UnetV1()]}`. -/
def AVAILABLE_MODELS : List (String × SegModel) :=
  [UNet2, UNet, TernausNetV1, TernausNetV2,
   VGG19UNetV1, VGG19UNetV2, ResNet50UnetV1].foldl
    (fun d m => dictInsert d m.MODEL_NAME m) []

/-- Python `dict.get(k)`: `None` when the key is absent. -/
def dictGet (d : List (String × SegModel)) (k : String) : Option SegModel :=
  (d.find? (fun p => p.fst = k)).map Prod.snd

/-- A Keras callback object, with the constructor arguments that
`get_callbacks` passes. -/
inductive Callback where
  | csvLogger (filename : String) (append : Bool) (separator : String)
  | modelCheckpoint (filepath : String) (monitor : String) (verbose : Nat)
      (save_best_only : Bool) (mode : String) (save_weights_only : Bool)
  | reduceLROnPlateau (monitor : String) (factor : ℚ) (patience : Nat)
      (verbose : Nat) (mode : String) (min_delta : ℚ) (cooldown : Nat) (min_lr : ℚ)
  | earlyStopping (monitor : String) (mode : String) (verbose : Nat) (patience : Nat)
  deriving DecidableEq, Repr

/-- `get_callbacks(seg_model)` from `fit.py`: builds the CSV logger, the
checkpoint, the LR scheduler and the early stopper, and returns
`[checkpoint, early, reduceLROnPlat, csv_logger]`. -/
def get_callbacks (seg_model : SegModel) : List Callback :=
  let csv_logger := Callback.csvLogger seg_model.FIT_HISTORY_PATH false ";"
  let checkpoint := Callback.modelCheckpoint seg_model.WEIGHT_PATH "val_loss" 1 true "min" true
  let reduceLROnPlat := Callback.reduceLROnPlateau "val_loss" (mkRat 1 5) 1 1 "min" (mkRat 1 1000) 0
    (mkRat 1 100000000)
  let early := Callback.earlyStopping "val_loss" "min" 2 15
  [checkpoint, early, reduceLROnPlat, csv_logger]

/-- Whether a callback writes an output file: the CSV logger and the
checkpoint do, the LR scheduler and the early stopper do not. -/
def callbackWritesFile : Callback → Bool
  | Callback.csvLogger _ _ _ => true
  | Callback.modelCheckpoint _ _ _ _ _ _ => true
  | Callback.reduceLROnPlateau _ _ _ _ _ _ _ _ => false
  | Callback.earlyStopping _ _ _ _ => false

/-- The file path a callback writes to, when it writes one. -/
def callbackFilePath : Callback → Option String
  | Callback.csvLogger f _ _ => some f
  | Callback.modelCheckpoint f _ _ _ _ _ => some f
  | Callback.reduceLROnPlateau _ _ _ _ _ _ _ _ => none
  | Callback.earlyStopping _ _ _ _ => none

/-! ## The external environment

The dataset, the Keras model objects and the imported helper functions are
opaque to `fit.py`: the embedding keeps them as uninterpreted fallible
functions collected in an `Env`. A dataframe only exposes the one attribute
the script reads, its row count `shape[0]`. -/

/-- A pandas dataframe, exposing `shape[0]` (the row count). -/
structure DF where
  rows : Nat
  deriving DecidableEq, Repr

/-- An in-memory validation array (opaque). -/
structure Arr where
  tag : Nat
  deriving DecidableEq, Repr

/-- A built Keras model object (opaque). -/
structure KModel where
  tag : Nat
  deriving DecidableEq, Repr

/-- A data generator object (opaque). -/
structure Gen where
  tag : Nat
  deriving DecidableEq, Repr

/-- The history object returned by `fit_generator`: the recorded
per-epoch `'val_loss'` values. -/
structure LossHist where
  val_loss : List ℚ
  deriving DecidableEq, Repr

/-- The constants imported from `config`
(`MAX_TRAIN_EPOCHS`, `MAX_TRAIN_STEPS`, `BATCH_SIZE`). -/
structure Config where
  MAX_TRAIN_EPOCHS : Nat
  MAX_TRAIN_STEPS : Nat
  BATCH_SIZE : Nat
  deriving DecidableEq, Repr

/-- The keyword arguments `fit.py` passes to `keras_model.fit_generator`. -/
structure FitCall where
  steps_per_epoch : Nat
  epochs : Nat
  validation_data : Arr × Arr
  callbacks : List Callback
  workers : Nat
  max_queue_size : Nat
  deriving DecidableEq, Repr

/-- An observable event of the script: prints, the weight-loading attempt,
model compilation, generator construction, the `fit_generator` call with its
arguments, a loop iteration's `fit(...)` call with its arguments, garbage
collection. `threadCreate` would record the script creating a thread of its
own; no definition of this development ever emits it. -/
inductive Ev where
  | printSummary
  | printed (s : String)
  | loadWeightsAttempt (path : String)
  | compiled (learning_rate : ℚ) (decay : ℚ) (loss : String)
  | fitGen (c : FitCall)
  | fitCalled (train_df : DF) (valid_x valid_y : Arr) (a : ArgsDict)
  | gcCollect
  | threadCreate
  deriving DecidableEq, Repr

/-- The uninterpreted external world: the imported helper modules and the
Keras methods, each allowed to return a value or raise any exception.
`fit_generator` additionally takes the index of the call (the training
outcome may differ between retry-loop iterations). -/
structure Env where
  load_dataset : Except PyErr DF
  get_unique_img_ids : DF → Except PyErr DF
  get_balanced_dataset : DF → Except PyErr DF
  drop_empty_images : DF → Except PyErr DF
  get_train_val_datasets : DF → DF → Except PyErr (DF × DF)
  split_validation_dataset : DF → Bool → Except PyErr (Arr × Arr)
  get_model : SegModel → Bool → Except PyErr KModel
  get_classifier_model : SegModel → Bool → Except PyErr KModel
  load_weights : KModel → String → Except PyErr Unit
  compileModel : KModel → ℚ → ℚ → Except PyErr Unit
  make_image_gen : DF → Bool → Except PyErr Gen
  create_aug_gen : Gen → Bool → Except PyErr Gen
  fit_generator : Nat → KModel → Gen → FitCall → Except PyErr LossHist

/-- Result of running a piece of the script: the Python return value or the
escaping exception, the event trace, and the argument dictionary as it
stands afterwards. -/
structure PyRes (α : Type) where
  result : Except PyErr α
  trace : List Ev
  argsAfter : ArgsDict

/-- `load_weight_if_possible(seg_model, keras_model)` from `fit.py`:
tries `keras_model.load_weights(seg_model.WEIGHT_PATH)`; an `OSError` is
caught and logged, success is logged, any other exception escapes. -/
def load_weight_if_possible (env : Env) (seg_model : SegModel) (keras_model : KModel) :
    Except PyErr Unit × List Ev :=
  match env.load_weights keras_model seg_model.WEIGHT_PATH with
  | Except.ok _ =>
      (Except.ok (),
       [Ev.loadWeightsAttempt seg_model.WEIGHT_PATH, Ev.printed "Weights loaded!"])
  | Except.error PyErr.osError =>
      (Except.ok (),
       [Ev.loadWeightsAttempt seg_model.WEIGHT_PATH,
        Ev.printed "No file with weights available! Starting from scratch..."])
  | Except.error (PyErr.other msg) =>
      (Except.error (PyErr.other msg), [Ev.loadWeightsAttempt seg_model.WEIGHT_PATH])

/-- `load_data(args)` from `fit.py`: load the dataset, compute unique image
ids, balance (classify mode) or drop empty images (segmentation mode),
split into train/validation, split the validation part into x and y. -/
def load_data (env : Env) (args : ArgsDict) : PyRes (DF × Arr × Arr) :=
  let res : Except PyErr (DF × Arr × Arr) :=
    match env.load_dataset with
    | Except.error e => Except.error e
    | Except.ok df =>
      match env.get_unique_img_ids df with
      | Except.error e => Except.error e
      | Except.ok unique_img_ids =>
        match (if getBool args "classify_mode" then
                 env.get_balanced_dataset unique_img_ids
               else
                 env.drop_empty_images unique_img_ids) with
        | Except.error e => Except.error e
        | Except.ok balanced_dataset =>
          match env.get_train_val_datasets df balanced_dataset with
          | Except.error e => Except.error e
          | Except.ok (train_df, valid_df) =>
            match env.split_validation_dataset valid_df (getBool args "classify_mode") with
            | Except.error e => Except.error e
            | Except.ok (valid_x, valid_y) => Except.ok (train_df, valid_x, valid_y)
  ⟨res, [], args⟩

/-- `fit(train_df, valid_x, valid_y, args)` from `fit.py`. The registry
lookup uses `dict.get`, so an unknown model name yields `None` and the
subsequent method call on it raises `AttributeError`. `k` is the index of
this call in the retry loop. -/
def fit (env : Env) (cfg : Config) (k : Nat) (train_df : DF) (valid_x valid_y : Arr)
    (args : ArgsDict) : PyRes (List LossHist) :=
  let body : Except PyErr (List LossHist) × List Ev :=
    match dictGet AVAILABLE_MODELS (getStr args "model_name") with
    | none =>
        (Except.error (PyErr.other "AttributeError: 'NoneType' object has no attribute"), [])
    | some seg_model =>
      let classify := getBool args "classify_mode"
      match (if classify then
               env.get_classifier_model seg_model (getBool args "train_only_top")
             else
               env.get_model seg_model (getBool args "train_only_top")) with
      | Except.error e => (Except.error e, [])
      | Except.ok keras_model =>
        let t1 := [Ev.printSummary]
        let callbacks_list := get_callbacks seg_model
        let lw : Except PyErr Unit × List Ev :=
          if getBool args "load_weights" then
            load_weight_if_possible env seg_model keras_model
          else (Except.ok (), [])
        match lw with
        | (Except.error e, t2) => (Except.error e, t1 ++ t2)
        | (Except.ok _, t2) =>
          match env.compileModel keras_model (getNum args "learning_rate") (mkRat 1 1000000) with
          | Except.error e => (Except.error e, t1 ++ t2)
          | Except.ok _ =>
            let t3 := t1 ++ t2 ++
              [Ev.compiled (getNum args "learning_rate") (mkRat 1 1000000) "binary_crossentropy"]
            let step_count := min cfg.MAX_TRAIN_STEPS (train_df.rows / cfg.BATCH_SIZE)
            match env.make_image_gen train_df classify with
            | Except.error e => (Except.error e, t3)
            | Except.ok g0 =>
              match env.create_aug_gen g0 classify with
              | Except.error e => (Except.error e, t3)
              | Except.ok aug_gen =>
                let call : FitCall :=
                  ⟨step_count, cfg.MAX_TRAIN_EPOCHS, (valid_x, valid_y), callbacks_list, 1, 1⟩
                match env.fit_generator k keras_model aug_gen call with
                | Except.error e => (Except.error e, t3 ++ [Ev.fitGen call])
                | Except.ok h => (Except.ok [h], t3 ++ [Ev.fitGen call])
  ⟨body.fst, body.snd, args⟩

/-- `np.min([mh.history['val_loss'] for mh in loss_history])`: the histories'
`'val_loss'` lists, joined. -/
def allValLosses (loss_history : List LossHist) : List ℚ :=
  (loss_history.map LossHist.val_loss).flatten

/-- `np.min` raises on an empty collection, otherwise returns the minimum. -/
def npMin (l : List ℚ) : Except PyErr ℚ :=
  match l with
  | [] => Except.error (PyErr.other "ValueError: zero-size array to reduction operation")
  | x :: xs => Except.ok (xs.foldl min x)

/-- Outcome of one iteration of the `while True` loop. -/
inductive IterOut where
  | raiseErr (e : PyErr) (t : List Ev)
  | exitLoop (t : List Ev)
  | again (t : List Ev)
  deriving DecidableEq, Repr

/-- One iteration of the `while True` loop of `fit.py`: call `fit`, collect
garbage, exit when the minimum recorded `'val_loss'` is strictly below
`0.2`, otherwise go round again. -/
def loopIter (env : Env) (cfg : Config) (k : Nat) (train_df : DF) (valid_x valid_y : Arr)
    (args : ArgsDict) : IterOut :=
  let fr := fit env cfg k train_df valid_x valid_y args
  let t0 := Ev.fitCalled train_df valid_x valid_y args :: fr.trace
  match fr.result with
  | Except.error e => IterOut.raiseErr e t0
  | Except.ok loss_history =>
    let t1 := t0 ++ [Ev.gcCollect]
    match npMin (allValLosses loss_history) with
    | Except.error e => IterOut.raiseErr e t1
    | Except.ok m => if m < mkRat 1 5 then IterOut.exitLoop t1 else IterOut.again t1

/-- The `while True` retry loop, fuelled: `k` is the index of the next
iteration; the result is `some k` when the loop exits at iteration `k`,
`none` when the fuel runs out with the loop still running. -/
def mainLoop (env : Env) (cfg : Config) (train_df : DF) (valid_x valid_y : Arr)
    (args : ArgsDict) : Nat → Nat → PyRes (Option Nat)
  | 0, _ => ⟨Except.ok none, [], args⟩
  | fuel + 1, k =>
    match loopIter env cfg k train_df valid_x valid_y args with
    | IterOut.raiseErr e t => ⟨Except.error e, t, args⟩
    | IterOut.exitLoop t => ⟨Except.ok (some k), t, args⟩
    | IterOut.again t =>
      let r := mainLoop env cfg train_df valid_x valid_y args fuel (k + 1)
      ⟨r.result, t ++ r.trace, args⟩

/-- The trace of a loop-iteration outcome. -/
def iterTrace : IterOut → List Ev
  | IterOut.raiseErr _ t => t
  | IterOut.exitLoop t => t
  | IterOut.again t => t

/-- A sample external world where every call succeeds: validation loss
history `[3/10, 1/10]`, weights file absent (`load_weights` raises
`OSError`). Used to instantiate universally quantified theorems. -/
def goodEnv : Env where
  load_dataset := Except.ok ⟨100⟩
  get_unique_img_ids := fun _ => Except.ok ⟨80⟩
  get_balanced_dataset := fun _ => Except.ok ⟨60⟩
  drop_empty_images := fun _ => Except.ok ⟨70⟩
  get_train_val_datasets := fun _ _ => Except.ok (⟨50⟩, ⟨20⟩)
  split_validation_dataset := fun _ _ => Except.ok (⟨1⟩, ⟨2⟩)
  get_model := fun _ _ => Except.ok ⟨3⟩
  get_classifier_model := fun _ _ => Except.ok ⟨4⟩
  load_weights := fun _ _ => Except.error PyErr.osError
  compileModel := fun _ _ _ => Except.ok ()
  make_image_gen := fun _ _ => Except.ok ⟨5⟩
  create_aug_gen := fun _ _ => Except.ok ⟨6⟩
  fit_generator := fun _ _ _ _ => Except.ok ⟨[mkRat 3 10, mkRat 1 10]⟩

/-- A sample external world where the first training round stalls at
validation loss `3/10` and the second reaches `1/10`: the retry loop
goes round once and exits on the second iteration. -/
def retryEnv : Env :=
  { goodEnv with
    fit_generator := fun i _ _ _ =>
      if i = 0 then Except.ok ⟨[mkRat 3 10]⟩ else Except.ok ⟨[mkRat 1 10]⟩ }

/-- A sample external world whose weights file is unreadable in a way that
raises a non-`OSError` exception. -/
def corruptWeightsEnv : Env :=
  { goodEnv with
    load_weights := fun _ _ => Except.error (PyErr.other "ValueError: bad HDF5") }

/-- A sample external world where loading the dataset itself raises. -/
def badDataEnv : Env :=
  { goodEnv with
    load_dataset := Except.error (PyErr.other "FileNotFoundError: train_ship_segmentations.csv") }

/-- The sample configuration used to instantiate theorems. -/
def cfgW : Config := ⟨7, 9, 4⟩

/-- Arguments selecting a model name that is not in the registry. -/
def argsBadModel : ArgsDict := setArg "model_name" (ArgVal.str "no_such_model") defaultArgs

/-- Arguments with `--load_weights` set. -/
def argsLoadW : ArgsDict := setArg "load_weights" (ArgVal.bool true) defaultArgs

/-- Arguments with `--classify_mode` set. -/
def argsClassify : ArgsDict := setArg "classify_mode" (ArgVal.bool true) defaultArgs

/-! ## Helper lemmas on traces -/

theorem lwip_trace (env : Env) (m : SegModel) (km : KModel) :
    ∀ ev ∈ (load_weight_if_possible env m km).snd,
      ev = Ev.loadWeightsAttempt m.WEIGHT_PATH ∨ ∃ s, ev = Ev.printed s := by
  intro ev hev
  unfold load_weight_if_possible at hev
  split at hev
  · simp only [List.mem_cons, List.not_mem_nil, or_false] at hev
    rcases hev with rfl | rfl
    · exact Or.inl rfl
    · exact Or.inr ⟨_, rfl⟩
  · simp only [List.mem_cons, List.not_mem_nil, or_false] at hev
    rcases hev with rfl | rfl
    · exact Or.inl rfl
    · exact Or.inr ⟨_, rfl⟩
  · simp only [List.mem_cons, List.not_mem_nil, or_false] at hev
    exact Or.inl hev

theorem fit_trace_mem (env : Env) (cfg : Config) (k : Nat) (td : DF) (vx vy : Arr)
    (args : ArgsDict) :
    ∀ ev ∈ (fit env cfg k td vx vy args).trace,
      ev = Ev.printSummary ∨ (∃ s, ev = Ev.printed s) ∨
      (∃ p, ev = Ev.loadWeightsAttempt p) ∨ (∃ a b c, ev = Ev.compiled a b c) ∨
      (∃ c : FitCall, ev = Ev.fitGen c ∧ c.workers = 1 ∧ c.max_queue_size = 1 ∧
        c.steps_per_epoch = min cfg.MAX_TRAIN_STEPS (td.rows / cfg.BATCH_SIZE) ∧
        c.epochs = cfg.MAX_TRAIN_EPOCHS ∧ c.validation_data = (vx, vy)) := by
  intro ev hev
  unfold fit at hev
  cases hmod : dictGet AVAILABLE_MODELS (getStr args "model_name") with
  | none =>
      rw [hmod] at hev
      simp at hev
  | some seg_model =>
  rw [hmod] at hev
  dsimp only at hev
  cases hbuild : (if getBool args "classify_mode" = true then
      env.get_classifier_model seg_model (getBool args "train_only_top")
    else
      env.get_model seg_model (getBool args "train_only_top")) with
  | error e =>
      rw [hbuild] at hev
      simp at hev
  | ok keras_model =>
  rw [hbuild] at hev
  dsimp only at hev
  have hlwi := lwip_trace env seg_model keras_model
  cases hflag : getBool args "load_weights" with
  | false =>
      rw [if_neg (fun hcon => Bool.false_ne_true (hflag.symm.trans hcon))] at hev
      dsimp only at hev
      cases hcmp : env.compileModel keras_model (getNum args "learning_rate") (mkRat 1 1000000) with
      | error e =>
          rw [hcmp] at hev
          simp only [List.append_assoc, List.cons_append, List.nil_append, List.append_nil,
            List.mem_cons, List.mem_append, List.mem_singleton, List.not_mem_nil,
            or_false, false_or] at hev
          exact Or.inl hev
      | ok u =>
      rw [hcmp] at hev
      dsimp only at hev
      cases hmig : env.make_image_gen td (getBool args "classify_mode") with
      | error e =>
          rw [hmig] at hev
          simp only [List.append_assoc, List.cons_append, List.nil_append, List.append_nil,
            List.mem_cons, List.mem_append, List.mem_singleton, List.not_mem_nil,
            or_false, false_or] at hev
          rcases hev with rfl | rfl
          · exact Or.inl rfl
          · exact Or.inr (Or.inr (Or.inr (Or.inl ⟨_, _, _, rfl⟩)))
      | ok g0 =>
      rw [hmig] at hev
      dsimp only at hev
      cases haug : env.create_aug_gen g0 (getBool args "classify_mode") with
      | error e =>
          rw [haug] at hev
          simp only [List.append_assoc, List.cons_append, List.nil_append, List.append_nil,
            List.mem_cons, List.mem_append, List.mem_singleton, List.not_mem_nil,
            or_false, false_or] at hev
          rcases hev with rfl | rfl
          · exact Or.inl rfl
          · exact Or.inr (Or.inr (Or.inr (Or.inl ⟨_, _, _, rfl⟩)))
      | ok aug_gen =>
      rw [haug] at hev
      dsimp only at hev
      cases hfg : env.fit_generator k keras_model aug_gen
          ⟨min cfg.MAX_TRAIN_STEPS (td.rows / cfg.BATCH_SIZE), cfg.MAX_TRAIN_EPOCHS,
           (vx, vy), get_callbacks seg_model, 1, 1⟩ with
      | error e =>
          rw [hfg] at hev
          simp only [List.append_assoc, List.cons_append, List.nil_append, List.append_nil,
            List.mem_cons, List.mem_append, List.mem_singleton, List.not_mem_nil,
            or_false, false_or] at hev
          rcases hev with rfl | rfl | rfl
          · exact Or.inl rfl
          · exact Or.inr (Or.inr (Or.inr (Or.inl ⟨_, _, _, rfl⟩)))
          · exact Or.inr (Or.inr (Or.inr (Or.inr ⟨_, rfl, rfl, rfl, rfl, rfl, rfl⟩)))
      | ok h =>
          rw [hfg] at hev
          simp only [List.append_assoc, List.cons_append, List.nil_append, List.append_nil,
            List.mem_cons, List.mem_append, List.mem_singleton, List.not_mem_nil,
            or_false, false_or] at hev
          rcases hev with rfl | rfl | rfl
          · exact Or.inl rfl
          · exact Or.inr (Or.inr (Or.inr (Or.inl ⟨_, _, _, rfl⟩)))
          · exact Or.inr (Or.inr (Or.inr (Or.inr ⟨_, rfl, rfl, rfl, rfl, rfl, rfl⟩)))
  | true =>
      rw [if_pos hflag] at hev
      cases hlw : load_weight_if_possible env seg_model keras_model with
      | mk lwr t2 =>
      have ht2 : ∀ x ∈ t2, x = Ev.loadWeightsAttempt seg_model.WEIGHT_PATH ∨ ∃ s, x = Ev.printed s := by
        intro x hx
        exact hlwi x (by rw [hlw]; exact hx)
      rw [hlw] at hev
      cases lwr with
      | error e =>
          dsimp only at hev
          simp only [List.append_assoc, List.cons_append, List.nil_append, List.append_nil,
            List.mem_cons, List.mem_append, List.mem_singleton, List.not_mem_nil,
            or_false, false_or] at hev
          rcases hev with rfl | hev
          · exact Or.inl rfl
          · rcases ht2 ev hev with rfl | ⟨s, rfl⟩
            · exact Or.inr (Or.inr (Or.inl ⟨_, rfl⟩))
            · exact Or.inr (Or.inl ⟨_, rfl⟩)
      | ok u =>
      dsimp only at hev
      cases hcmp : env.compileModel keras_model (getNum args "learning_rate") (mkRat 1 1000000) with
      | error e =>
          rw [hcmp] at hev
          simp only [List.append_assoc, List.cons_append, List.nil_append, List.append_nil,
            List.mem_cons, List.mem_append, List.mem_singleton, List.not_mem_nil,
            or_false, false_or] at hev
          rcases hev with rfl | hev
          · exact Or.inl rfl
          · rcases ht2 ev hev with rfl | ⟨s, rfl⟩
            · exact Or.inr (Or.inr (Or.inl ⟨_, rfl⟩))
            · exact Or.inr (Or.inl ⟨_, rfl⟩)
      | ok u2 =>
      rw [hcmp] at hev
      dsimp only at hev
      cases hmig : env.make_image_gen td (getBool args "classify_mode") with
      | error e =>
          rw [hmig] at hev
          simp only [List.append_assoc, List.cons_append, List.nil_append, List.append_nil,
            List.mem_cons, List.mem_append, List.mem_singleton, List.not_mem_nil,
            or_false, false_or] at hev
          rcases hev with rfl | hev | rfl
          · exact Or.inl rfl
          · rcases ht2 ev hev with rfl | ⟨s, rfl⟩
            · exact Or.inr (Or.inr (Or.inl ⟨_, rfl⟩))
            · exact Or.inr (Or.inl ⟨_, rfl⟩)
          · exact Or.inr (Or.inr (Or.inr (Or.inl ⟨_, _, _, rfl⟩)))
      | ok g0 =>
      rw [hmig] at hev
      dsimp only at hev
      cases haug : env.create_aug_gen g0 (getBool args "classify_mode") with
      | error e =>
          rw [haug] at hev
          simp only [List.append_assoc, List.cons_append, List.nil_append, List.append_nil,
            List.mem_cons, List.mem_append, List.mem_singleton, List.not_mem_nil,
            or_false, false_or] at hev
          rcases hev with rfl | hev | rfl
          · exact Or.inl rfl
          · rcases ht2 ev hev with rfl | ⟨s, rfl⟩
            · exact Or.inr (Or.inr (Or.inl ⟨_, rfl⟩))
            · exact Or.inr (Or.inl ⟨_, rfl⟩)
          · exact Or.inr (Or.inr (Or.inr (Or.inl ⟨_, _, _, rfl⟩)))
      | ok aug_gen =>
      rw [haug] at hev
      dsimp only at hev
      cases hfg : env.fit_generator k keras_model aug_gen
          ⟨min cfg.MAX_TRAIN_STEPS (td.rows / cfg.BATCH_SIZE), cfg.MAX_TRAIN_EPOCHS,
           (vx, vy), get_callbacks seg_model, 1, 1⟩ with
      | error e =>
          rw [hfg] at hev
          simp only [List.append_assoc, List.cons_append, List.nil_append, List.append_nil,
            List.mem_cons, List.mem_append, List.mem_singleton, List.not_mem_nil,
            or_false, false_or] at hev
          rcases hev with rfl | hev | rfl | rfl
          · exact Or.inl rfl
          · rcases ht2 ev hev with rfl | ⟨s, rfl⟩
            · exact Or.inr (Or.inr (Or.inl ⟨_, rfl⟩))
            · exact Or.inr (Or.inl ⟨_, rfl⟩)
          · exact Or.inr (Or.inr (Or.inr (Or.inl ⟨_, _, _, rfl⟩)))
          · exact Or.inr (Or.inr (Or.inr (Or.inr ⟨_, rfl, rfl, rfl, rfl, rfl, rfl⟩)))
      | ok h =>
          rw [hfg] at hev
          simp only [List.append_assoc, List.cons_append, List.nil_append, List.append_nil,
            List.mem_cons, List.mem_append, List.mem_singleton, List.not_mem_nil,
            or_false, false_or] at hev
          rcases hev with rfl | hev | rfl | rfl
          · exact Or.inl rfl
          · rcases ht2 ev hev with rfl | ⟨s, rfl⟩
            · exact Or.inr (Or.inr (Or.inl ⟨_, rfl⟩))
            · exact Or.inr (Or.inl ⟨_, rfl⟩)
          · exact Or.inr (Or.inr (Or.inr (Or.inl ⟨_, _, _, rfl⟩)))
          · exact Or.inr (Or.inr (Or.inr (Or.inr ⟨_, rfl, rfl, rfl, rfl, rfl, rfl⟩)))

theorem loopIter_trace_mem (env : Env) (cfg : Config) (k : Nat) (td : DF) (vx vy : Arr)
    (args : ArgsDict) :
    ∀ ev ∈ iterTrace (loopIter env cfg k td vx vy args),
      ev = Ev.fitCalled td vx vy args ∨ ev = Ev.gcCollect ∨
      ev ∈ (fit env cfg k td vx vy args).trace := by
  intro ev hev
  unfold loopIter at hev
  dsimp only at hev
  cases hres : (fit env cfg k td vx vy args).result with
  | error e =>
      rw [hres] at hev
      dsimp only [iterTrace] at hev
      simp only [List.mem_cons] at hev
      rcases hev with rfl | hev
      · exact Or.inl rfl
      · exact Or.inr (Or.inr hev)
  | ok lh =>
      rw [hres] at hev
      dsimp only at hev
      cases hmin : npMin (allValLosses lh) with
      | error e =>
          rw [hmin] at hev
          dsimp only [iterTrace] at hev
          simp only [List.cons_append, List.mem_cons, List.mem_append,
            List.mem_singleton, List.not_mem_nil, or_false] at hev
          rcases hev with rfl | hev | rfl
          · exact Or.inl rfl
          · exact Or.inr (Or.inr hev)
          · exact Or.inr (Or.inl rfl)
      | ok m =>
          rw [hmin] at hev
          dsimp only at hev
          by_cases hlt : m < mkRat 1 5
          · rw [if_pos hlt] at hev
            dsimp only [iterTrace] at hev
            simp only [List.cons_append, List.mem_cons, List.mem_append,
              List.mem_singleton, List.not_mem_nil, or_false] at hev
            rcases hev with rfl | hev | rfl
            · exact Or.inl rfl
            · exact Or.inr (Or.inr hev)
            · exact Or.inr (Or.inl rfl)
          · rw [if_neg hlt] at hev
            dsimp only [iterTrace] at hev
            simp only [List.cons_append, List.mem_cons, List.mem_append,
              List.mem_singleton, List.not_mem_nil, or_false] at hev
            rcases hev with rfl | hev | rfl
            · exact Or.inl rfl
            · exact Or.inr (Or.inr hev)
            · exact Or.inr (Or.inl rfl)

theorem mainLoop_trace_mem (env : Env) (cfg : Config) (td : DF) (vx vy : Arr)
    (args : ArgsDict) :
    ∀ (fuel k : Nat), ∀ ev ∈ (mainLoop env cfg td vx vy args fuel k).trace,
      ev = Ev.fitCalled td vx vy args ∨ ev = Ev.gcCollect ∨
      ∃ i, ev ∈ (fit env cfg i td vx vy args).trace := by
  intro fuel
  induction fuel with
  | zero =>
      intro k ev hev
      simp [mainLoop] at hev
  | succ n ih =>
      intro k ev hev
      unfold mainLoop at hev
      cases hit : loopIter env cfg k td vx vy args with
      | raiseErr e t =>
          rw [hit] at hev
          dsimp only at hev
          have := loopIter_trace_mem env cfg k td vx vy args ev (by rw [hit]; exact hev)
          rcases this with h | h | h
          · exact Or.inl h
          · exact Or.inr (Or.inl h)
          · exact Or.inr (Or.inr ⟨k, h⟩)
      | exitLoop t =>
          rw [hit] at hev
          dsimp only at hev
          have := loopIter_trace_mem env cfg k td vx vy args ev (by rw [hit]; exact hev)
          rcases this with h | h | h
          · exact Or.inl h
          · exact Or.inr (Or.inl h)
          · exact Or.inr (Or.inr ⟨k, h⟩)
      | again t =>
          rw [hit] at hev
          dsimp only at hev
          rw [List.mem_append] at hev
          rcases hev with hev | hev
          · have := loopIter_trace_mem env cfg k td vx vy args ev (by rw [hit]; exact hev)
            rcases this with h | h | h
            · exact Or.inl h
            · exact Or.inr (Or.inl h)
            · exact Or.inr (Or.inr ⟨k, h⟩)
          · exact ih (k + 1) ev hev

/-! ## The claims -/

/-- Claim C3: the command-line interface accepts exactly the five flags
`--model_name` (string, default `'simple_unet'`), `--learning_rate`
(float, default `0.001`), and the boolean `store_true` flags
`--train_only_top`, `--classify_mode`, `--load_weights` (default false,
set to true by their presence); parsing always produces a dictionary with
exactly those five keys. -/
theorem cli_five_options :
    parse_args [] = some defaultArgs ∧
    argKeys defaultArgs =
      ["model_name", "learning_rate", "train_only_top", "classify_mode", "load_weights"] ∧
    lookupArg defaultArgs "model_name" = some (ArgVal.str "simple_unet") ∧
    lookupArg defaultArgs "learning_rate" = some (ArgVal.num (mkRat 1 1000)) ∧
    lookupArg defaultArgs "train_only_top" = some (ArgVal.bool false) ∧
    lookupArg defaultArgs "classify_mode" = some (ArgVal.bool false) ∧
    lookupArg defaultArgs "load_weights" = some (ArgVal.bool false) ∧
    (∀ toks d, parse_args toks = some d →
      argKeys d =
        ["model_name", "learning_rate", "train_only_top", "classify_mode", "load_weights"]) ∧
    parse_args ["--train_only_top"] =
      some (setArg "train_only_top" (ArgVal.bool true) defaultArgs) ∧
    parse_args ["-tt"] = some (setArg "train_only_top" (ArgVal.bool true) defaultArgs) ∧
    parse_args ["--classify_mode"] = some argsClassify ∧
    parse_args ["-cl"] = some argsClassify ∧
    parse_args ["--load_weights"] = some argsLoadW ∧
    parse_args ["-lw"] = some argsLoadW ∧
    parse_args ["--model_name", "ternaus_net_v1"] =
      some (setArg "model_name" (ArgVal.str "ternaus_net_v1") defaultArgs) ∧
    parse_args ["--learning_rate", "0.01"] =
      some (setArg "learning_rate" (ArgVal.num (mkRat 1 100)) defaultArgs) ∧
    parse_args ["--epochs"] = none := by
  refine ⟨by decide, rfl, rfl, rfl, rfl, rfl, rfl, ?_, by decide, by decide, by decide,
    by decide, by decide, by decide, by decide, by decide, by decide⟩
  intro toks d h
  exact (parseRun_keys toks PMode.top defaultArgs d h).trans rfl

/-- Witness for C3 at the concrete command line `["-cl"]`. -/
theorem cli_five_options_witness :
    argKeys argsClassify =
      ["model_name", "learning_rate", "train_only_top", "classify_mode", "load_weights"] :=
  cli_five_options.2.2.2.2.2.2.2.1 ["-cl"] argsClassify (by decide)

/-- Claim C6: the file-writing callbacks built by `get_callbacks` are
exactly a weights-only checkpoint on the model's `WEIGHT_PATH`
(monitoring `'val_loss'`, `'min'` mode, best-only) and a CSV logger on the
model's `FIT_HISTORY_PATH` (separator `';'`, append disabled); every
file-writing callback writes to one of those two paths. -/
theorem output_callbacks (m : SegModel) :
    (get_callbacks m).filter callbackWritesFile =
      [Callback.modelCheckpoint m.WEIGHT_PATH "val_loss" 1 true "min" true,
       Callback.csvLogger m.FIT_HISTORY_PATH false ";"] ∧
    ∀ c ∈ get_callbacks m, callbackWritesFile c = true →
      callbackFilePath c = some m.WEIGHT_PATH ∨ callbackFilePath c = some m.FIT_HISTORY_PATH := by
  constructor
  · rfl
  · intro c hc hw
    simp only [get_callbacks, List.mem_cons, List.not_mem_nil, or_false] at hc
    rcases hc with rfl | rfl | rfl | rfl
    · exact Or.inl rfl
    · exact absurd hw (by simp [callbackWritesFile])
    · exact absurd hw (by simp [callbackWritesFile])
    · exact Or.inr rfl

/-- Witness for C6 at the concrete model `UNet`, instantiated at the
CSV-logger callback. -/
theorem output_callbacks_witness :
    (get_callbacks UNet).filter callbackWritesFile =
      [Callback.modelCheckpoint UNet.WEIGHT_PATH "val_loss" 1 true "min" true,
       Callback.csvLogger UNet.FIT_HISTORY_PATH false ";"] ∧
    (callbackFilePath (Callback.csvLogger UNet.FIT_HISTORY_PATH false ";") =
        some UNet.WEIGHT_PATH ∨
     callbackFilePath (Callback.csvLogger UNet.FIT_HISTORY_PATH false ";") =
        some UNet.FIT_HISTORY_PATH) :=
  ⟨(output_callbacks UNet).1,
   (output_callbacks UNet).2 (Callback.csvLogger UNet.FIT_HISTORY_PATH false ";")
     (by simp [get_callbacks]) rfl⟩

/-- Claim C8: the registry `AVAILABLE_MODELS` maps each model name to a
single model object (its keys are distinct), and distinct model names map
to distinct `WEIGHT_PATH` values. -/
theorem weight_path_unique :
    (AVAILABLE_MODELS.map Prod.fst).Nodup ∧
    AVAILABLE_MODELS.Pairwise
      (fun p q => p.fst ≠ q.fst → p.snd.WEIGHT_PATH ≠ q.snd.WEIGHT_PATH) ∧
    (AVAILABLE_MODELS.map Prod.fst) =
      [UNet2.MODEL_NAME, UNet.MODEL_NAME, TernausNetV1.MODEL_NAME, TernausNetV2.MODEL_NAME,
       VGG19UNetV1.MODEL_NAME, VGG19UNetV2.MODEL_NAME, ResNet50UnetV1.MODEL_NAME] := by
  refine ⟨by decide, ?_, by decide⟩
  decide

/-- Claim C7: the argument dictionary is immutable after parse: `load_data`,
`fit` and the main retry loop read entries of `args` but never add, remove
or overwrite a key, so the dictionary is unchanged throughout. -/
theorem args_immutable (env : Env) (cfg : Config) (td : DF) (vx vy : Arr)
    (args : ArgsDict) (fuel k : Nat) :
    (load_data env args).argsAfter = args ∧
    (fit env cfg k td vx vy args).argsAfter = args ∧
    (mainLoop env cfg td vx vy args fuel k).argsAfter = args := by
  refine ⟨rfl, rfl, ?_⟩
  · cases fuel with
    | zero => rfl
    | succ n =>
        unfold mainLoop
        split <;> rfl

/-- Claim C9: when `args['model_name']` is not a key of `AVAILABLE_MODELS`,
`dict.get` yields `None` and `fit` fails with an unhandled `AttributeError`
at the first method call on the model object, before any data is consumed
and before any output event: its trace is empty. -/
theorem unknown_model_unhandled (env : Env) (cfg : Config) (k : Nat) (td : DF)
    (vx vy : Arr) (args : ArgsDict)
    (h : dictGet AVAILABLE_MODELS (getStr args "model_name") = none) :
    (fit env cfg k td vx vy args).result =
      Except.error (PyErr.other "AttributeError: 'NoneType' object has no attribute") ∧
    (fit env cfg k td vx vy args).trace = [] := by
  unfold fit
  rw [h]
  exact ⟨rfl, rfl⟩

/-- Witness for C9 at the concrete model name `'no_such_model'`. -/
theorem unknown_model_unhandled_witness :
    (fit goodEnv cfgW 0 ⟨50⟩ ⟨1⟩ ⟨2⟩ argsBadModel).result =
      Except.error (PyErr.other "AttributeError: 'NoneType' object has no attribute") ∧
    (fit goodEnv cfgW 0 ⟨50⟩ ⟨1⟩ ⟨2⟩ argsBadModel).trace = [] :=
  unknown_model_unhandled goodEnv cfgW 0 ⟨50⟩ ⟨1⟩ ⟨2⟩ argsBadModel (by decide)

/-- Claim C10: the number of training steps per epoch passed to
`fit_generator` is exactly `min(MAX_TRAIN_STEPS, rows // BATCH_SIZE)`;
it never exceeds `MAX_TRAIN_STEPS` and is `0` whenever the training
dataframe has fewer rows than `BATCH_SIZE`. -/
theorem step_count_bound (env : Env) (cfg : Config) (k : Nat) (td : DF) (vx vy : Arr)
    (args : ArgsDict) (c : FitCall)
    (h : Ev.fitGen c ∈ (fit env cfg k td vx vy args).trace) :
    c.steps_per_epoch = min cfg.MAX_TRAIN_STEPS (td.rows / cfg.BATCH_SIZE) ∧
    c.steps_per_epoch ≤ cfg.MAX_TRAIN_STEPS ∧
    (td.rows < cfg.BATCH_SIZE → c.steps_per_epoch = 0) := by
  rcases fit_trace_mem env cfg k td vx vy args _ h with
    h1 | ⟨s, h1⟩ | ⟨p, h1⟩ | ⟨a, b, c2, h1⟩ | ⟨c2, h1, hw, hq, hs, he, hv⟩
  · exact Ev.noConfusion h1
  · exact Ev.noConfusion h1
  · exact Ev.noConfusion h1
  · exact Ev.noConfusion h1
  · have hc : c = c2 := by injection h1
    subst hc
    refine ⟨hs, ?_, ?_⟩
    · rw [hs]; exact Nat.min_le_left _ _
    · intro hrows
      rw [hs, Nat.div_eq_of_lt hrows]
      exact Nat.min_zero _

/-- Witness for C10: with `BATCH_SIZE = 4` and a 2-row training dataframe the
recorded call has zero steps per epoch. -/
theorem step_count_bound_witness :
    (⟨0, 7, (⟨1⟩, ⟨2⟩), get_callbacks UNet, 1, 1⟩ : FitCall).steps_per_epoch = 0 ∧ (2 : Nat) < 4 :=
  ⟨(step_count_bound goodEnv cfgW 0 ⟨2⟩ ⟨1⟩ ⟨2⟩ defaultArgs
      ⟨0, 7, (⟨1⟩, ⟨2⟩), get_callbacks UNet, 1, 1⟩ (by decide)).2.2 (by decide), by decide⟩

/-- Claim C5: every `fit_generator` call is configured with `workers=1` and
`max_queue_size=1`, and no code of the script itself creates a thread: no
trace of `load_data`, `fit` or the retry loop contains a thread-creation
event. -/
theorem single_worker_config (env : Env) (cfg : Config) (k fuel : Nat) (td : DF)
    (vx vy : Arr) (args : ArgsDict) (c : FitCall) :
    (Ev.fitGen c ∈ (fit env cfg k td vx vy args).trace →
       c.workers = 1 ∧ c.max_queue_size = 1) ∧
    Ev.threadCreate ∉ (fit env cfg k td vx vy args).trace ∧
    Ev.threadCreate ∉ (load_data env args).trace ∧
    Ev.threadCreate ∉ (mainLoop env cfg td vx vy args fuel k).trace := by
  refine ⟨?_, ?_, ?_, ?_⟩
  · intro h
    rcases fit_trace_mem env cfg k td vx vy args _ h with
      h1 | ⟨s, h1⟩ | ⟨p, h1⟩ | ⟨a, b, c2, h1⟩ | ⟨c2, h1, hw, hq, hs, he, hv⟩
    · exact Ev.noConfusion h1
    · exact Ev.noConfusion h1
    · exact Ev.noConfusion h1
    · exact Ev.noConfusion h1
    · have hc : c = c2 := by injection h1
      subst hc
      exact ⟨hw, hq⟩
  · intro h
    rcases fit_trace_mem env cfg k td vx vy args _ h with
      h1 | ⟨s, h1⟩ | ⟨p, h1⟩ | ⟨a, b, c2, h1⟩ | ⟨c2, h1, hw, hq, hs, he, hv⟩
    · exact Ev.noConfusion h1
    · exact Ev.noConfusion h1
    · exact Ev.noConfusion h1
    · exact Ev.noConfusion h1
    · exact Ev.noConfusion h1
  · intro h
    simp [load_data] at h
  · intro h
    rcases mainLoop_trace_mem env cfg td vx vy args fuel k _ h with h1 | h1 | ⟨i, h1⟩
    · exact Ev.noConfusion h1
    · exact Ev.noConfusion h1
    · rcases fit_trace_mem env cfg i td vx vy args _ h1 with
        h2 | ⟨s, h2⟩ | ⟨p, h2⟩ | ⟨a, b, c2, h2⟩ | ⟨c2, h2, hw, hq, hs, he, hv⟩
      · exact Ev.noConfusion h2
      · exact Ev.noConfusion h2
      · exact Ev.noConfusion h2
      · exact Ev.noConfusion h2
      · exact Ev.noConfusion h2

/-- Witness for C5: the call recorded by a concrete successful `fit` run has
one worker and a queue of one. -/
theorem single_worker_config_witness :
    (⟨9, 7, (⟨1⟩, ⟨2⟩), get_callbacks UNet, 1, 1⟩ : FitCall).workers = 1 ∧
    (⟨9, 7, (⟨1⟩, ⟨2⟩), get_callbacks UNet, 1, 1⟩ : FitCall).max_queue_size = 1 :=
  (single_worker_config goodEnv cfgW 0 0 ⟨50⟩ ⟨1⟩ ⟨2⟩ defaultArgs
    ⟨9, 7, (⟨1⟩, ⟨2⟩), get_callbacks UNet, 1, 1⟩).1 (by decide)

/-- Claim C4: `load_data` loads the dataset, computes unique image ids, then
branches on `classify_mode`: balancing via `get_balanced_dataset` when true,
dropping empty images via `drop_empty_images` when false, before splitting
into train and validation parts and returning `(train_df, valid_x, valid_y)`. -/
theorem load_data_branches (env : Env) (args : ArgsDict) (df uids bal td vd : DF)
    (vx vy : Arr)
    (h1 : env.load_dataset = Except.ok df)
    (h2 : env.get_unique_img_ids df = Except.ok uids)
    (h4 : env.get_train_val_datasets df bal = Except.ok (td, vd))
    (h5 : env.split_validation_dataset vd (getBool args "classify_mode") = Except.ok (vx, vy)) :
    (getBool args "classify_mode" = true →
       env.get_balanced_dataset uids = Except.ok bal →
       (load_data env args).result = Except.ok (td, vx, vy)) ∧
    (getBool args "classify_mode" = false →
       env.drop_empty_images uids = Except.ok bal →
       (load_data env args).result = Except.ok (td, vx, vy)) := by
  constructor
  · intro hc h3
    unfold load_data
    dsimp only
    rw [h1]
    dsimp only
    rw [h2]
    dsimp only
    rw [if_pos hc, h3]
    dsimp only
    rw [h4]
    dsimp only
    rw [h5]
  · intro hc h3
    unfold load_data
    dsimp only
    rw [h1]
    dsimp only
    rw [h2]
    dsimp only
    rw [if_neg (fun hcon => Bool.false_ne_true (hc.symm.trans hcon)), h3]
    dsimp only
    rw [h4]
    dsimp only
    rw [h5]

/-- Witness for C4: the two branches at a concrete environment, with
`--classify_mode` set and unset. -/
theorem load_data_branches_witness :
    (load_data goodEnv argsClassify).result = Except.ok (⟨50⟩, ⟨1⟩, ⟨2⟩) ∧
    (load_data goodEnv defaultArgs).result = Except.ok (⟨50⟩, ⟨1⟩, ⟨2⟩) :=
  ⟨(load_data_branches goodEnv argsClassify ⟨100⟩ ⟨80⟩ ⟨60⟩ ⟨50⟩ ⟨20⟩ ⟨1⟩ ⟨2⟩
      rfl rfl rfl rfl).1 (by decide) rfl,
   (load_data_branches goodEnv defaultArgs ⟨100⟩ ⟨80⟩ ⟨70⟩ ⟨50⟩ ⟨20⟩ ⟨1⟩ ⟨2⟩
      rfl rfl rfl rfl).2 (by decide) rfl⟩

/-- Claim C1: the only failure the program catches is a missing weights file:
`load_weight_if_possible` catches exactly the `OSError` raised by
`load_weights`, logs a message and continues (also inside `fit`, where
training then proceeds); every other exception raised anywhere in
`load_data`, `fit` or the main loop propagates unhandled. -/
theorem only_missing_weights_caught :
    (∀ env m km, env.load_weights km m.WEIGHT_PATH = Except.error PyErr.osError →
       (load_weight_if_possible env m km).fst = Except.ok () ∧
       Ev.printed "No file with weights available! Starting from scratch..." ∈
         (load_weight_if_possible env m km).snd) ∧
    (∀ env m km msg, env.load_weights km m.WEIGHT_PATH = Except.error (PyErr.other msg) →
       (load_weight_if_possible env m km).fst = Except.error (PyErr.other msg)) ∧
    (∀ env args e, env.load_dataset = Except.error e →
       (load_data env args).result = Except.error e) ∧
    (∀ env args df e, env.load_dataset = Except.ok df →
       env.get_unique_img_ids df = Except.error e →
       (load_data env args).result = Except.error e) ∧
    (∀ env args df uids e, env.load_dataset = Except.ok df →
       env.get_unique_img_ids df = Except.ok uids →
       (if getBool args "classify_mode" = true then env.get_balanced_dataset uids
        else env.drop_empty_images uids) = Except.error e →
       (load_data env args).result = Except.error e) ∧
    (∀ env args df uids bal e, env.load_dataset = Except.ok df →
       env.get_unique_img_ids df = Except.ok uids →
       (if getBool args "classify_mode" = true then env.get_balanced_dataset uids
        else env.drop_empty_images uids) = Except.ok bal →
       env.get_train_val_datasets df bal = Except.error e →
       (load_data env args).result = Except.error e) ∧
    (∀ env args df uids bal td vd e, env.load_dataset = Except.ok df →
       env.get_unique_img_ids df = Except.ok uids →
       (if getBool args "classify_mode" = true then env.get_balanced_dataset uids
        else env.drop_empty_images uids) = Except.ok bal →
       env.get_train_val_datasets df bal = Except.ok (td, vd) →
       env.split_validation_dataset vd (getBool args "classify_mode") = Except.error e →
       (load_data env args).result = Except.error e) ∧
    (∀ env cfg k td vx vy args m e,
       dictGet AVAILABLE_MODELS (getStr args "model_name") = some m →
       (if getBool args "classify_mode" = true then
          env.get_classifier_model m (getBool args "train_only_top")
        else env.get_model m (getBool args "train_only_top")) = Except.error e →
       (fit env cfg k td vx vy args).result = Except.error e) ∧
    (∀ env cfg k td vx vy args m km msg,
       dictGet AVAILABLE_MODELS (getStr args "model_name") = some m →
       (if getBool args "classify_mode" = true then
          env.get_classifier_model m (getBool args "train_only_top")
        else env.get_model m (getBool args "train_only_top")) = Except.ok km →
       getBool args "load_weights" = true →
       env.load_weights km m.WEIGHT_PATH = Except.error (PyErr.other msg) →
       (fit env cfg k td vx vy args).result = Except.error (PyErr.other msg)) ∧
    (∀ env cfg k td vx vy args m km g ag h,
       dictGet AVAILABLE_MODELS (getStr args "model_name") = some m →
       (if getBool args "classify_mode" = true then
          env.get_classifier_model m (getBool args "train_only_top")
        else env.get_model m (getBool args "train_only_top")) = Except.ok km →
       getBool args "load_weights" = true →
       env.load_weights km m.WEIGHT_PATH = Except.error PyErr.osError →
       env.compileModel km (getNum args "learning_rate") (mkRat 1 1000000) = Except.ok () →
       env.make_image_gen td (getBool args "classify_mode") = Except.ok g →
       env.create_aug_gen g (getBool args "classify_mode") = Except.ok ag →
       env.fit_generator k km ag
         ⟨min cfg.MAX_TRAIN_STEPS (td.rows / cfg.BATCH_SIZE), cfg.MAX_TRAIN_EPOCHS,
          (vx, vy), get_callbacks m, 1, 1⟩ = Except.ok h →
       (fit env cfg k td vx vy args).result = Except.ok [h]) ∧
    (∀ env cfg k td vx vy args m km g ag e,
       dictGet AVAILABLE_MODELS (getStr args "model_name") = some m →
       (if getBool args "classify_mode" = true then
          env.get_classifier_model m (getBool args "train_only_top")
        else env.get_model m (getBool args "train_only_top")) = Except.ok km →
       getBool args "load_weights" = false →
       env.compileModel km (getNum args "learning_rate") (mkRat 1 1000000) = Except.ok () →
       env.make_image_gen td (getBool args "classify_mode") = Except.ok g →
       env.create_aug_gen g (getBool args "classify_mode") = Except.ok ag →
       env.fit_generator k km ag
         ⟨min cfg.MAX_TRAIN_STEPS (td.rows / cfg.BATCH_SIZE), cfg.MAX_TRAIN_EPOCHS,
          (vx, vy), get_callbacks m, 1, 1⟩ = Except.error e →
       (fit env cfg k td vx vy args).result = Except.error e) ∧
    (∀ env cfg td vx vy args fuel k e,
       (fit env cfg k td vx vy args).result = Except.error e →
       (mainLoop env cfg td vx vy args (fuel + 1) k).result = Except.error e) := by
  refine ⟨?_, ?_, ?_, ?_, ?_, ?_, ?_, ?_, ?_, ?_, ?_, ?_⟩
  · intro env m km h
    unfold load_weight_if_possible
    rw [h]
    exact ⟨rfl, by simp⟩
  · intro env m km msg h
    unfold load_weight_if_possible
    rw [h]
  · intro env args e h
    unfold load_data
    dsimp only
    rw [h]
  · intro env args df e h1 h2
    unfold load_data
    dsimp only
    rw [h1]
    dsimp only
    rw [h2]
  · intro env args df uids e h1 h2 h3
    unfold load_data
    dsimp only
    rw [h1]
    dsimp only
    rw [h2]
    dsimp only
    rw [h3]
  · intro env args df uids bal e h1 h2 h3 h4
    unfold load_data
    dsimp only
    rw [h1]
    dsimp only
    rw [h2]
    dsimp only
    rw [h3]
    dsimp only
    rw [h4]
  · intro env args df uids bal td vd e h1 h2 h3 h4 h5
    unfold load_data
    dsimp only
    rw [h1]
    dsimp only
    rw [h2]
    dsimp only
    rw [h3]
    dsimp only
    rw [h4]
    dsimp only
    rw [h5]
  · intro env cfg k td vx vy args m e hmod hbuild
    unfold fit
    dsimp only
    rw [hmod]
    dsimp only
    rw [hbuild]
  · intro env cfg k td vx vy args m km msg hmod hbuild hflag hlwo
    have hlw : load_weight_if_possible env m km =
        (Except.error (PyErr.other msg), [Ev.loadWeightsAttempt m.WEIGHT_PATH]) := by
      unfold load_weight_if_possible
      rw [hlwo]
    unfold fit
    dsimp only
    rw [hmod]
    dsimp only
    rw [hbuild]
    dsimp only
    rw [if_pos hflag, hlw]
  · intro env cfg k td vx vy args m km g ag h hmod hbuild hflag hlwo hcmp hmig haug hfg
    have hlw : load_weight_if_possible env m km =
        (Except.ok (),
         [Ev.loadWeightsAttempt m.WEIGHT_PATH,
          Ev.printed "No file with weights available! Starting from scratch..."]) := by
      unfold load_weight_if_possible
      rw [hlwo]
    unfold fit
    dsimp only
    rw [hmod]
    dsimp only
    rw [hbuild]
    dsimp only
    rw [if_pos hflag, hlw]
    dsimp only
    rw [hcmp]
    dsimp only
    rw [hmig]
    dsimp only
    rw [haug]
    dsimp only
    rw [hfg]
  · intro env cfg k td vx vy args m km g ag e hmod hbuild hflag hcmp hmig haug hfg
    unfold fit
    dsimp only
    rw [hmod]
    dsimp only
    rw [hbuild]
    dsimp only
    rw [if_neg (fun hcon => Bool.false_ne_true (hflag.symm.trans hcon))]
    dsimp only
    rw [hcmp]
    dsimp only
    rw [hmig]
    dsimp only
    rw [haug]
    dsimp only
    rw [hfg]
  · intro env cfg td vx vy args fuel k e hfit
    have hit : loopIter env cfg k td vx vy args =
        IterOut.raiseErr e
          (Ev.fitCalled td vx vy args :: (fit env cfg k td vx vy args).trace) := by
      unfold loopIter
      dsimp only
      rw [hfit]
    unfold mainLoop
    rw [hit]

/-- Witness for C1 at concrete environments: a missing weights file is
caught and logged and training proceeds to success; a corrupt weights file
(non-`OSError`) escapes `load_weight_if_possible` and `fit`; a dataset
loading error escapes `load_data`. -/
theorem only_missing_weights_caught_witness :
    (load_weight_if_possible goodEnv UNet ⟨3⟩).fst = Except.ok () ∧
    Ev.printed "No file with weights available! Starting from scratch..." ∈
      (load_weight_if_possible goodEnv UNet ⟨3⟩).snd ∧
    (load_weight_if_possible corruptWeightsEnv UNet ⟨3⟩).fst =
      Except.error (PyErr.other "ValueError: bad HDF5") ∧
    (load_data badDataEnv defaultArgs).result =
      Except.error (PyErr.other "FileNotFoundError: train_ship_segmentations.csv") ∧
    (fit corruptWeightsEnv cfgW 0 ⟨50⟩ ⟨1⟩ ⟨2⟩ argsLoadW).result =
      Except.error (PyErr.other "ValueError: bad HDF5") ∧
    (fit goodEnv cfgW 0 ⟨50⟩ ⟨1⟩ ⟨2⟩ argsLoadW).result =
      Except.ok [⟨[mkRat 3 10, mkRat 1 10]⟩] :=
  ⟨(only_missing_weights_caught.1 goodEnv UNet ⟨3⟩ rfl).1,
   (only_missing_weights_caught.1 goodEnv UNet ⟨3⟩ rfl).2,
   only_missing_weights_caught.2.1 corruptWeightsEnv UNet ⟨3⟩ "ValueError: bad HDF5" rfl,
   only_missing_weights_caught.2.2.1 badDataEnv defaultArgs
     (PyErr.other "FileNotFoundError: train_ship_segmentations.csv") rfl,
   only_missing_weights_caught.2.2.2.2.2.2.2.2.1 corruptWeightsEnv cfgW 0 ⟨50⟩ ⟨1⟩ ⟨2⟩
     argsLoadW UNet ⟨3⟩ "ValueError: bad HDF5" (by decide) (by decide) (by decide) rfl,
   only_missing_weights_caught.2.2.2.2.2.2.2.2.2.1 goodEnv cfgW 0 ⟨50⟩ ⟨1⟩ ⟨2⟩
     argsLoadW UNet ⟨3⟩ ⟨5⟩ ⟨6⟩ ⟨[mkRat 3 10, mkRat 1 10]⟩
     (by decide) (by decide) (by decide) rfl rfl rfl rfl rfl⟩

/-- Claim C2: the retry loop exits after an iteration exactly when the
minimum recorded `'val_loss'` of the histories returned by that call to
`fit` is strictly below `0.2`; otherwise it goes round again, and every
iteration calls `fit` with the same `train_df`, `valid_x`, `valid_y` and
`args`. -/
theorem retry_loop_exit (env : Env) (cfg : Config) (td : DF) (vx vy : Arr) (args : ArgsDict) :
    (∀ k, (∃ t, loopIter env cfg k td vx vy args = IterOut.exitLoop t) ↔
       (∃ lh m, (fit env cfg k td vx vy args).result = Except.ok lh ∧
          npMin (allValLosses lh) = Except.ok m ∧ m < mkRat 1 5)) ∧
    (∀ k, (∃ t, loopIter env cfg k td vx vy args = IterOut.again t) ↔
       (∃ lh m, (fit env cfg k td vx vy args).result = Except.ok lh ∧
          npMin (allValLosses lh) = Except.ok m ∧ ¬ m < mkRat 1 5)) ∧
    (∀ fuel k j, (mainLoop env cfg td vx vy args fuel k).result = Except.ok (some j) →
       k ≤ j ∧ (∃ t, loopIter env cfg j td vx vy args = IterOut.exitLoop t) ∧
       ∀ i, k ≤ i → i < j → ∃ t, loopIter env cfg i td vx vy args = IterOut.again t) ∧
    (∀ td2 vx2 vy2 a2 fuel k,
       Ev.fitCalled td2 vx2 vy2 a2 ∈ (mainLoop env cfg td vx vy args fuel k).trace →
       td2 = td ∧ vx2 = vx ∧ vy2 = vy ∧ a2 = args) := by
  refine ⟨?_, ?_, ?_, ?_⟩
  · intro k
    constructor
    · rintro ⟨t, ht⟩
      unfold loopIter at ht
      dsimp only at ht
      cases hres : (fit env cfg k td vx vy args).result with
      | error e => rw [hres] at ht; exact IterOut.noConfusion ht
      | ok lh =>
        rw [hres] at ht
        dsimp only at ht
        cases hmin : npMin (allValLosses lh) with
        | error e => rw [hmin] at ht; exact IterOut.noConfusion ht
        | ok m =>
          rw [hmin] at ht
          dsimp only at ht
          by_cases hlt : m < mkRat 1 5
          · exact ⟨lh, m, rfl, hmin, hlt⟩
          · rw [if_neg hlt] at ht
            exact IterOut.noConfusion ht
    · rintro ⟨lh, m, hres, hmin, hlt⟩
      refine ⟨(Ev.fitCalled td vx vy args :: (fit env cfg k td vx vy args).trace) ++
        [Ev.gcCollect], ?_⟩
      unfold loopIter
      dsimp only
      rw [hres]
      dsimp only
      rw [hmin]
      dsimp only
      rw [if_pos hlt]
  · intro k
    constructor
    · rintro ⟨t, ht⟩
      unfold loopIter at ht
      dsimp only at ht
      cases hres : (fit env cfg k td vx vy args).result with
      | error e => rw [hres] at ht; exact IterOut.noConfusion ht
      | ok lh =>
        rw [hres] at ht
        dsimp only at ht
        cases hmin : npMin (allValLosses lh) with
        | error e => rw [hmin] at ht; exact IterOut.noConfusion ht
        | ok m =>
          rw [hmin] at ht
          dsimp only at ht
          by_cases hlt : m < mkRat 1 5
          · rw [if_pos hlt] at ht
            exact IterOut.noConfusion ht
          · exact ⟨lh, m, rfl, hmin, hlt⟩
    · rintro ⟨lh, m, hres, hmin, hlt⟩
      refine ⟨(Ev.fitCalled td vx vy args :: (fit env cfg k td vx vy args).trace) ++
        [Ev.gcCollect], ?_⟩
      unfold loopIter
      dsimp only
      rw [hres]
      dsimp only
      rw [hmin]
      dsimp only
      rw [if_neg hlt]
  · intro fuel
    induction fuel with
    | zero =>
        intro k j h
        simp [mainLoop] at h
    | succ n ih =>
        intro k j h
        unfold mainLoop at h
        cases hit : loopIter env cfg k td vx vy args with
        | raiseErr e t =>
            rw [hit] at h
            dsimp only at h
            exact Except.noConfusion h
        | exitLoop t =>
            rw [hit] at h
            dsimp only at h
            have hk : k = j := by
              injection h with h1
              injection h1
            subst hk
            exact ⟨Nat.le_refl k, ⟨t, hit⟩,
              fun i hki hik => absurd hik (Nat.not_lt.mpr hki)⟩
        | again t =>
            rw [hit] at h
            dsimp only at h
            obtain ⟨hk1j, hexit, hmid⟩ := ih (k + 1) j h
            refine ⟨Nat.le_of_succ_le hk1j, hexit, ?_⟩
            intro i hki hij
            rcases Nat.eq_or_lt_of_le hki with heq | hlt
            · rw [← heq]
              exact ⟨t, hit⟩
            · exact hmid i (Nat.succ_le_of_lt hlt) hij
  · intro td2 vx2 vy2 a2 fuel k h
    rcases mainLoop_trace_mem env cfg td vx vy args fuel k _ h with h1 | h1 | ⟨i, h1⟩
    · injection h1 with e1 e2 e3 e4
      exact ⟨e1, e2, e3, e4⟩
    · exact Ev.noConfusion h1
    · rcases fit_trace_mem env cfg i td vx vy args _ h1 with
        h2 | ⟨s, h2⟩ | ⟨p, h2⟩ | ⟨a, b, c2, h2⟩ | ⟨c2, h2, hw, hq, hs, he, hv⟩
      · exact Ev.noConfusion h2
      · exact Ev.noConfusion h2
      · exact Ev.noConfusion h2
      · exact Ev.noConfusion h2
      · exact Ev.noConfusion h2

/-- Witness for C2 at a concrete environment where the first training round
stalls at `val_loss` `0.3` and the second reaches `0.1`: the loop goes
round once and exits after the second call. -/
theorem retry_loop_exit_witness :
    (mainLoop retryEnv cfgW ⟨50⟩ ⟨1⟩ ⟨2⟩ defaultArgs 5 0).result = Except.ok (some 1) ∧
    (∃ t, loopIter retryEnv cfgW 1 ⟨50⟩ ⟨1⟩ ⟨2⟩ defaultArgs = IterOut.exitLoop t) ∧
    (∃ t, loopIter retryEnv cfgW 0 ⟨50⟩ ⟨1⟩ ⟨2⟩ defaultArgs = IterOut.again t) :=
  ⟨by decide,
   ((retry_loop_exit retryEnv cfgW ⟨50⟩ ⟨1⟩ ⟨2⟩ defaultArgs).2.2.1 5 0 1 (by decide)).2.1,
   ((retry_loop_exit retryEnv cfgW ⟨50⟩ ⟨1⟩ ⟨2⟩ defaultArgs).2.2.1 5 0 1 (by decide)).2.2 0
     (Nat.le_refl 0) (by decide)⟩

end ShipDetection
